import Mathlib

/-!
Shallow embedding of `oscar/apps/partner/availability.py`.

The module defines a small hierarchy of availability policies:
`Base`, `Unavailable`, `Available`, `StockRequired`, and
`DelegateToStockRecord`.  We embed the hierarchy as a tagged union
(`Policy`), each Python method as a Lean function on `Policy`, and a
Python `AttributeError` raised by dereferencing a `None` stock record
as the `none` value of an `Option` result.  Python integers are `Int`;
the translated strings produced by `ugettext_lazy` are modelled as the
plain strings themselves.
-/

namespace Availability

/-- The product-class collaborator: `product.get_product_class()` exposes
the `track_stock` flag read by `DelegateToStockRecord.is_available_to_buy`. -/
structure ProductClass where
  track_stock : Bool

/-- The product collaborator passed to `DelegateToStockRecord.__init__`. -/
structure Product where
  product_class : ProductClass

/-- Embeds `product.get_product_class()`. -/
def Product.get_product_class (p : Product) : ProductClass :=
  p.product_class

/-- The user collaborator is only forwarded, never inspected. -/
abbrev User := Unit

/-- The external stock-record collaborator.  `StockRequired` reads only
`net_stock_level`; `DelegateToStockRecord` forwards to the remaining
attributes.  The delegated behaviours are arbitrary, as the module places
no constraint on them. -/
structure StockRecord where
  net_stock_level : Int
  is_available_to_buy : Bool := false
  is_purchase_permitted : Option User → Int → Product → Bool × String :=
    fun _ _ _ => (false, "")
  availability_code : String := ""
  availability : String := ""
  lead_time : Option Int := none
  dispatch_date : Option Int := none

/-- The availability-policy hierarchy as a tagged union.  Constructor
arguments are the attributes stored by the corresponding `__init__`
(`None` defaults become `Option`). -/
inductive Policy where
  | Base : Policy
  | Unavailable : Policy
  | Available : Policy
  | StockRequired (stockrecord : Option StockRecord) : Policy
  | DelegateToStockRecord (product : Product) (stockrecord : Option StockRecord)
      (user : Option User) : Policy

/-- Embeds `is_purchase_permitted(self, quantity)` under dynamic dispatch.
`Base` and `Unavailable` use the base implementation; `Available`,
`StockRequired` and `DelegateToStockRecord` override it.  A `None`
stock-record dereference is the `none` result. -/
def Policy.is_purchase_permitted : Policy → Int → Option (Bool × String)
  | .Base, _quantity => some (false, "Unavailable")
  | .Unavailable, _quantity => some (false, "Unavailable")
  | .Available, _quantity => some (true, "")
  | .StockRequired stockrecord, quantity =>
    match stockrecord with
    | none => none
    | some r =>
      let num_in_stock := r.net_stock_level
      if num_in_stock = 0 then
        some (false, "No stock available")
      else if quantity > num_in_stock then
        some (false, "A maximum of " ++ toString num_in_stock ++ " can be bought")
      else
        some (true, "")
  | .DelegateToStockRecord product stockrecord user, quantity =>
    match stockrecord with
    | none => none
    | some r => some (r.is_purchase_permitted user quantity product)

/-- Embeds the `is_available_to_buy` property.  `DelegateToStockRecord`
overrides it; every other variant inherits the base implementation
`self.is_purchase_permitted(1)[0]` (dispatching dynamically). -/
def Policy.is_available_to_buy : Policy → Option Bool
  | .DelegateToStockRecord product stockrecord _user =>
    match stockrecord with
    | none => some false
    | some r =>
      if !product.get_product_class.track_stock then some true
      else some r.is_available_to_buy
  | p => (p.is_purchase_permitted 1).map Prod.fst

/-- Embeds the `code` attribute or property of each variant. -/
def Policy.code : Policy → Option String
  | .Base => some ""
  | .Unavailable => some "unavailable"
  | .Available => some "available"
  | .StockRequired stockrecord =>
    match stockrecord with
    | none => none
    | some r =>
      if r.net_stock_level > 0 then some "instock" else some "outofstock"
  | .DelegateToStockRecord _product stockrecord _user =>
    match stockrecord with
    | none => none
    | some r => some r.availability_code

/-- Embeds the `message` attribute or property of each variant. -/
def Policy.message : Policy → Option String
  | .Base => some ""
  | .Unavailable => some "Unavailable"
  | .Available => some "Available"
  | .StockRequired stockrecord =>
    match stockrecord with
    | none => none
    | some r =>
      if r.net_stock_level > 0 then
        some ("In stock (" ++ toString r.net_stock_level ++ " available)")
      else
        some "Not available"
  | .DelegateToStockRecord _product stockrecord _user =>
    match stockrecord with
    | none => none
    | some r => some r.availability

/-- Embeds the `lead_time` attribute or property of each variant
(the base class attribute is the Python value `None`, not an error). -/
def Policy.lead_time : Policy → Option (Option Int)
  | .DelegateToStockRecord _product stockrecord _user =>
    match stockrecord with
    | none => none
    | some r => some r.lead_time
  | _ => some none

/-- Embeds the `dispatch_date` attribute or property of each variant. -/
def Policy.dispatch_date : Policy → Option (Option Int)
  | .DelegateToStockRecord _product stockrecord _user =>
    match stockrecord with
    | none => none
    | some r => some r.dispatch_date
  | _ => some none

/-- True exactly on `DelegateToStockRecord` policies (the one variant that
overrides the `is_available_to_buy` property). -/
def Policy.isDelegate : Policy → Bool
  | .DelegateToStockRecord _ _ _ => true
  | _ => false

/-!
State-passing translations.  To reason about frame effects we also give
each operation a translation that threads the policy state (the instance
attributes together with the referenced stock record's contents) through
every statement and returns it alongside the result, statement by
statement following the Python method bodies, which contain no
assignment outside `__init__`.
-/

/-- State-passing translation of `is_purchase_permitted`. -/
def Policy.is_purchase_permitted_exec (self : Policy) (quantity : Int) :
    Option (Bool × String) × Policy :=
  match self with
  | .Base => (some (false, "Unavailable"), self)
  | .Unavailable => (some (false, "Unavailable"), self)
  | .Available => (some (true, ""), self)
  | .StockRequired stockrecord =>
    match stockrecord with
    | none => (none, self)
    | some r =>
      let num_in_stock := r.net_stock_level
      if num_in_stock = 0 then
        (some (false, "No stock available"), self)
      else if quantity > num_in_stock then
        (some (false, "A maximum of " ++ toString num_in_stock ++ " can be bought"), self)
      else
        (some (true, ""), self)
  | .DelegateToStockRecord product stockrecord user =>
    match stockrecord with
    | none => (none, self)
    | some r => (some (r.is_purchase_permitted user quantity product), self)

/-- State-passing translation of the `is_available_to_buy` property; the
inherited base implementation threads the state through its call to
`self.is_purchase_permitted(1)`. -/
def Policy.is_available_to_buy_exec (self : Policy) : Option Bool × Policy :=
  match self with
  | .DelegateToStockRecord product stockrecord _user =>
    match stockrecord with
    | none => (some false, self)
    | some r =>
      if !product.get_product_class.track_stock then (some true, self)
      else (some r.is_available_to_buy, self)
  | p =>
    match p.is_purchase_permitted_exec 1 with
    | (res, p1) => (res.map Prod.fst, p1)

/-- State-passing translation of the `code` attribute or property. -/
def Policy.code_exec (self : Policy) : Option String × Policy :=
  match self with
  | .Base => (some "", self)
  | .Unavailable => (some "unavailable", self)
  | .Available => (some "available", self)
  | .StockRequired stockrecord =>
    match stockrecord with
    | none => (none, self)
    | some r =>
      if r.net_stock_level > 0 then (some "instock", self)
      else (some "outofstock", self)
  | .DelegateToStockRecord _product stockrecord _user =>
    match stockrecord with
    | none => (none, self)
    | some r => (some r.availability_code, self)

/-- State-passing translation of the `message` attribute or property. -/
def Policy.message_exec (self : Policy) : Option String × Policy :=
  match self with
  | .Base => (some "", self)
  | .Unavailable => (some "Unavailable", self)
  | .Available => (some "Available", self)
  | .StockRequired stockrecord =>
    match stockrecord with
    | none => (none, self)
    | some r =>
      if r.net_stock_level > 0 then
        (some ("In stock (" ++ toString r.net_stock_level ++ " available)"), self)
      else
        (some "Not available", self)
  | .DelegateToStockRecord _product stockrecord _user =>
    match stockrecord with
    | none => (none, self)
    | some r => (some r.availability, self)

/-!
Helper lemmas: each state-passing translation computes the pure result
and returns the state unchanged.
-/

theorem Policy.is_purchase_permitted_exec_eq (p : Policy) (q : Int) :
    p.is_purchase_permitted_exec q = (p.is_purchase_permitted q, p) := by
  cases p with
  | Base => rfl
  | Unavailable => rfl
  | Available => rfl
  | StockRequired sr =>
    cases sr with
    | none => rfl
    | some r =>
      by_cases h0 : r.net_stock_level = 0
      · simp [Policy.is_purchase_permitted_exec, Policy.is_purchase_permitted, h0]
      · by_cases hq : q > r.net_stock_level
        · simp [Policy.is_purchase_permitted_exec, Policy.is_purchase_permitted, h0, hq]
        · simp [Policy.is_purchase_permitted_exec, Policy.is_purchase_permitted, h0, hq]
  | DelegateToStockRecord product sr user =>
    cases sr with
    | none => rfl
    | some r => rfl

theorem Policy.is_available_to_buy_exec_eq (p : Policy) :
    p.is_available_to_buy_exec = (p.is_available_to_buy, p) := by
  cases p with
  | DelegateToStockRecord product sr user =>
    cases sr with
    | none => rfl
    | some r =>
      by_cases h : product.get_product_class.track_stock
      · simp [Policy.is_available_to_buy_exec, Policy.is_available_to_buy, h]
      · simp [Policy.is_available_to_buy_exec, Policy.is_available_to_buy, h]
  | Base =>
    simp [Policy.is_available_to_buy_exec, Policy.is_available_to_buy,
      Policy.is_purchase_permitted_exec_eq]
  | Unavailable =>
    simp [Policy.is_available_to_buy_exec, Policy.is_available_to_buy,
      Policy.is_purchase_permitted_exec_eq]
  | Available =>
    simp [Policy.is_available_to_buy_exec, Policy.is_available_to_buy,
      Policy.is_purchase_permitted_exec_eq]
  | StockRequired sr =>
    simp [Policy.is_available_to_buy_exec, Policy.is_available_to_buy,
      Policy.is_purchase_permitted_exec_eq]

theorem Policy.code_exec_eq (p : Policy) :
    p.code_exec = (p.code, p) := by
  cases p with
  | Base => rfl
  | Unavailable => rfl
  | Available => rfl
  | StockRequired sr =>
    cases sr with
    | none => rfl
    | some r =>
      by_cases h : r.net_stock_level > 0
      · simp [Policy.code_exec, Policy.code, h]
      · simp [Policy.code_exec, Policy.code, h]
  | DelegateToStockRecord product sr user =>
    cases sr with
    | none => rfl
    | some r => rfl

theorem Policy.message_exec_eq (p : Policy) :
    p.message_exec = (p.message, p) := by
  cases p with
  | Base => rfl
  | Unavailable => rfl
  | Available => rfl
  | StockRequired sr =>
    cases sr with
    | none => rfl
    | some r =>
      by_cases h : r.net_stock_level > 0
      · simp [Policy.message_exec, Policy.message, h]
      · simp [Policy.message_exec, Policy.message, h]
  | DelegateToStockRecord product sr user =>
    cases sr with
    | none => rfl
    | some r => rfl

/-- Claim C1: for a `StockRequired` policy with an attached stock record
whose `net_stock_level` is a non-negative integer, `is_purchase_permitted`
returns (false, "No stock available") when the stock level is zero,
(false, "A maximum of N can be bought") with N the stock level when the
requested quantity exceeds it, and (true, "") otherwise. -/
theorem StockRequired_is_purchase_permitted_spec (r : StockRecord) (quantity : Int)
    (hn : 0 ≤ r.net_stock_level) :
    (Policy.StockRequired (some r)).is_purchase_permitted quantity =
      (if r.net_stock_level = 0 then
        some (false, "No stock available")
      else if quantity > r.net_stock_level then
        some (false, "A maximum of " ++ toString r.net_stock_level ++ " can be bought")
      else
        some (true, "")) :=
  rfl

/-- Witness for C1: stock level 5, requested quantity 6. -/
theorem StockRequired_is_purchase_permitted_spec_witness :
    (0:Int) ≤ ({ net_stock_level := 5 } : StockRecord).net_stock_level ∧
    (Policy.StockRequired (some { net_stock_level := 5 })).is_purchase_permitted 6 =
      some (false, "A maximum of 5 can be bought") := by
  refine ⟨by decide, ?_⟩
  rw [StockRequired_is_purchase_permitted_spec { net_stock_level := 5 } 6 (by decide)]
  rfl

/-- Claim C3: the `Available` policy permits every purchase of quantity
at least 1, with an empty reason. -/
theorem Available_is_purchase_permitted_spec (n : Int) (h : 1 ≤ n) :
    Policy.Available.is_purchase_permitted n = some (true, "") :=
  rfl

/-- Witness for C3 at quantity 3. -/
theorem Available_is_purchase_permitted_spec_witness :
    (1:Int) ≤ 3 ∧ Policy.Available.is_purchase_permitted 3 = some (true, "") :=
  ⟨by decide, Available_is_purchase_permitted_spec 3 (by decide)⟩

/-- Claim C4: the `Base` and `Unavailable` policies deny every purchase
with reason "Unavailable", whatever the quantity. -/
theorem Base_Unavailable_is_purchase_permitted_spec (quantity : Int) :
    Policy.Base.is_purchase_permitted quantity = some (false, "Unavailable") ∧
    Policy.Unavailable.is_purchase_permitted quantity = some (false, "Unavailable") :=
  ⟨rfl, rfl⟩

/-- Claim C7: constructed without a stock record, both `StockRequired` and
`DelegateToStockRecord` fail with a null-reference (absent-attribute) error
on `is_purchase_permitted`, for every quantity, instead of returning a
(bool, reason) result. -/
theorem missing_stockrecord_is_purchase_permitted_fails (quantity : Int)
    (product : Product) (user : Option User) :
    (Policy.StockRequired none).is_purchase_permitted quantity = none ∧
    (Policy.DelegateToStockRecord product none user).is_purchase_permitted quantity = none :=
  ⟨rfl, rfl⟩

/-- Claim C2 (counterexample): `DelegateToStockRecord` overrides
`is_available_to_buy`, so it need not equal the boolean component of
`is_purchase_permitted(1)`.  Concretely: a product whose class does not
track stock, with an attached stock record whose own
`is_purchase_permitted` denies, gives `is_available_to_buy` true while
`is_purchase_permitted(1)` is (false, _). -/
theorem delegate_is_available_to_buy_not_derived :
    ¬ ((Policy.DelegateToStockRecord ⟨⟨false⟩⟩
          (some { net_stock_level := 0,
                  is_purchase_permitted := fun _ _ _ => (false, "not permitted") })
          none).is_available_to_buy
        = ((Policy.DelegateToStockRecord ⟨⟨false⟩⟩
          (some { net_stock_level := 0,
                  is_purchase_permitted := fun _ _ _ => (false, "not permitted") })
          none).is_purchase_permitted 1).map Prod.fst) := by
  decide

/-- Claim C2 (amended): for every policy variant other than
`DelegateToStockRecord`, on every input on which `is_purchase_permitted(1)`
is defined, `is_available_to_buy` equals the boolean component of
`is_purchase_permitted(1)`. -/
theorem is_available_to_buy_derived (p : Policy) (hd : p.isDelegate = false)
    (hdef : (p.is_purchase_permitted 1).isSome = true) :
    p.is_available_to_buy = (p.is_purchase_permitted 1).map Prod.fst := by
  cases p <;> simp_all [Policy.isDelegate, Policy.is_available_to_buy]

/-- Witness for the amended C2 at the `Available` policy. -/
theorem is_available_to_buy_derived_witness :
    Policy.Available.isDelegate = false ∧
    (Policy.Available.is_purchase_permitted 1).isSome = true ∧
    Policy.Available.is_available_to_buy =
      (Policy.Available.is_purchase_permitted 1).map Prod.fst :=
  ⟨by decide, by decide, is_available_to_buy_derived Policy.Available (by decide) (by decide)⟩

/-- Claim C5: for `DelegateToStockRecord`, `is_available_to_buy` is false
when no stock record is attached; true when one is attached but the
product's class does not track stock; otherwise it is the attached stock
record's own `is_available_to_buy`. -/
theorem delegate_is_available_to_buy_spec (product : Product)
    (stockrecord : Option StockRecord) (user : Option User) :
    (stockrecord = none →
      (Policy.DelegateToStockRecord product stockrecord user).is_available_to_buy =
        some false) ∧
    (∀ r, stockrecord = some r → product.get_product_class.track_stock = false →
      (Policy.DelegateToStockRecord product stockrecord user).is_available_to_buy =
        some true) ∧
    (∀ r, stockrecord = some r → product.get_product_class.track_stock = true →
      (Policy.DelegateToStockRecord product stockrecord user).is_available_to_buy =
        some r.is_available_to_buy) := by
  refine ⟨fun h => ?_, fun r h ht => ?_, fun r h ht => ?_⟩
  · subst h; simp [Policy.is_available_to_buy]
  · subst h; simp [Policy.is_available_to_buy, ht]
  · subst h; simp [Policy.is_available_to_buy, ht]

/-- Witness for C5: all three cases at concrete products and records. -/
theorem delegate_is_available_to_buy_spec_witness :
    (Policy.DelegateToStockRecord ⟨⟨false⟩⟩ none none).is_available_to_buy = some false ∧
    (Policy.DelegateToStockRecord ⟨⟨false⟩⟩
      (some { net_stock_level := 0 }) none).is_available_to_buy = some true ∧
    (Policy.DelegateToStockRecord ⟨⟨true⟩⟩
      (some { net_stock_level := 0, is_available_to_buy := true })
      none).is_available_to_buy = some true :=
  ⟨(delegate_is_available_to_buy_spec ⟨⟨false⟩⟩ none none).1 rfl,
   (delegate_is_available_to_buy_spec ⟨⟨false⟩⟩ (some { net_stock_level := 0 }) none).2.1
     { net_stock_level := 0 } rfl rfl,
   (delegate_is_available_to_buy_spec ⟨⟨true⟩⟩
     (some { net_stock_level := 0, is_available_to_buy := true }) none).2.2
     { net_stock_level := 0, is_available_to_buy := true } rfl rfl⟩

/-- Claim C6: for `StockRequired` with an attached stock record whose
`net_stock_level` is a non-negative integer, `code` is "instock" when the
stock level is positive and "outofstock" when it is zero. -/
theorem StockRequired_code_spec (r : StockRecord) (hn : 0 ≤ r.net_stock_level) :
    (Policy.StockRequired (some r)).code =
      some (if 0 < r.net_stock_level then "instock" else "outofstock") := by
  by_cases h : r.net_stock_level > 0 <;> simp [Policy.code, h]

/-- Witness for C6 at stock level 5. -/
theorem StockRequired_code_spec_witness :
    (0:Int) ≤ ({ net_stock_level := 5 } : StockRecord).net_stock_level ∧
    (Policy.StockRequired (some { net_stock_level := 5 })).code = some "instock" := by
  refine ⟨by decide, ?_⟩
  rw [StockRequired_code_spec { net_stock_level := 5 } (by decide)]
  rfl

/-- Claim C8: every policy operation is a pure read-only evaluation: for
every variant the state-passing translation of `is_purchase_permitted`,
`is_available_to_buy`, `code` and `message` returns the policy state
(its attributes and the referenced stock record's contents) unchanged,
and running the same operation again on the resulting state yields the
same result. -/
theorem policy_ops_read_only (p : Policy) (q : Int) :
    (p.is_purchase_permitted_exec q).2 = p ∧
    p.is_available_to_buy_exec.2 = p ∧
    p.code_exec.2 = p ∧
    p.message_exec.2 = p ∧
    ((p.is_purchase_permitted_exec q).2.is_purchase_permitted_exec q).1 =
      (p.is_purchase_permitted_exec q).1 ∧
    (p.is_available_to_buy_exec.2.is_available_to_buy_exec).1 =
      p.is_available_to_buy_exec.1 ∧
    (p.code_exec.2.code_exec).1 = p.code_exec.1 ∧
    (p.message_exec.2.message_exec).1 = p.message_exec.1 := by
  simp [Policy.is_purchase_permitted_exec_eq, Policy.is_available_to_buy_exec_eq,
    Policy.code_exec_eq, Policy.message_exec_eq]

/-- Claim C9: neither `Available` nor `StockRequired` validates that the
requested quantity is positive: for every quantity q ≤ 0, `Available`
permits the purchase, and so does `StockRequired` with an attached stock
record of positive stock level. -/
theorem nonpositive_quantity_permitted (q : Int) (hq : q ≤ 0) (r : StockRecord)
    (hr : 0 < r.net_stock_level) :
    Policy.Available.is_purchase_permitted q = some (true, "") ∧
    (Policy.StockRequired (some r)).is_purchase_permitted q = some (true, "") := by
  refine ⟨rfl, ?_⟩
  have h0 : ¬ r.net_stock_level = 0 := by omega
  have h1 : ¬ q > r.net_stock_level := by omega
  simp [Policy.is_purchase_permitted, h0, h1]

/-- Witness for C9 at quantity 0 and stock level 2. -/
theorem nonpositive_quantity_permitted_witness :
    (0:Int) ≤ 0 ∧ (0:Int) < ({ net_stock_level := 2 } : StockRecord).net_stock_level ∧
    Policy.Available.is_purchase_permitted 0 = some (true, "") ∧
    (Policy.StockRequired (some { net_stock_level := 2 })).is_purchase_permitted 0 =
      some (true, "") :=
  ⟨by decide, by decide,
    nonpositive_quantity_permitted 0 (by decide) { net_stock_level := 2 } (by decide)⟩

/-- Claim C10: for `StockRequired` with an attached stock record whose
`net_stock_level` is a non-negative integer, `is_available_to_buy` is true
exactly when `code` is "instock", and both hold exactly when the stock
level is positive. -/
theorem StockRequired_available_iff_instock (r : StockRecord)
    (hn : 0 ≤ r.net_stock_level) :
    ((Policy.StockRequired (some r)).is_available_to_buy = some true ↔
      (Policy.StockRequired (some r)).code = some "instock") ∧
    ((Policy.StockRequired (some r)).is_available_to_buy = some true ↔
      0 < r.net_stock_level) := by
  by_cases h0 : r.net_stock_level = 0
  · simp only [Policy.is_available_to_buy, Policy.is_purchase_permitted, Policy.code, h0]
    norm_num
    decide
  · have hpos : 0 < r.net_stock_level := lt_of_le_of_ne hn (Ne.symm h0)
    have h1 : ¬ (1:Int) > r.net_stock_level := by omega
    simp [Policy.is_available_to_buy, Policy.is_purchase_permitted, Policy.code, h0, h1, hpos]

/-- Witness for C10 at stock level 5. -/
theorem StockRequired_available_iff_instock_witness :
    (0:Int) ≤ ({ net_stock_level := 5 } : StockRecord).net_stock_level ∧
    (((Policy.StockRequired (some { net_stock_level := 5 })).is_available_to_buy = some true ↔
      (Policy.StockRequired (some { net_stock_level := 5 })).code = some "instock") ∧
    ((Policy.StockRequired (some { net_stock_level := 5 })).is_available_to_buy = some true ↔
      (0:Int) < ({ net_stock_level := 5 } : StockRecord).net_stock_level)) :=
  ⟨by decide, StockRequired_available_iff_instock { net_stock_level := 5 } (by decide)⟩

end Availability
